import Mathlib

/-!
Verification of the rtk-query-tags-util library (src/CacheUtils.ts and the
second copy of the CacheUtils class in src/unnamed/part_000).

The library is a family of pure higher-order functions producing ordered
lists of cache-tag descriptors from a (result, error, argument) triple.
We embed the data model and every operation the claims mention.

Conventions of the embedding:
- TypeScript `X | undefined` becomes `Option X`; an absent optional argument
  is `none`.
- JavaScript truthiness: the code tests `if (!result)` and `if (error)` on
  values of generic type.  `undefined` (our `none`) is always falsy; whether
  a *present* value of the generic type is falsy depends on the type the
  caller instantiates (arrays, objects and functions are never falsy, the
  number 0 and the empty string are).  Definitions whose source inspects
  truthiness of a generic value therefore take an explicit `falsy : R → Bool`
  predicate describing which present values of the instantiated type are
  JavaScript-falsy.  For `withList` the result type is constrained in the
  source to an array type (`R extends Record<"id", TagID>[]`) and arrays are
  never falsy, so there `!result` is exactly `result.isNone`.  A `ProvidingTags`
  value is an array or a function, never falsy when present, so `!tags` in
  `getTags` is exactly `tags.isNone`.
- ramda's `compose()` applied to zero functions throws
  `Error("compose requires at least one argument")` at that moment; we model
  `withTags` (the src/CacheUtils.ts version) as returning `Except String _`,
  erroring on the empty list at construction time.
- ramda's `composeWith(xf)` applied to the empty list returns the identity
  function (pipeWith short-circuits on `list.length <= 0`); the part_000
  version of `withTags` is modelled with an explicit sum distinguishing
  this identity outcome from a genuine provider.
-/

/-- TagID from src/CacheUtils.ts line 4: `string | number`. -/
inductive TagID where
  | str (s : String)
  | num (n : Int)
deriving DecidableEq, Repr

/-- TagItem from src/CacheUtils.ts lines 6-8: a bare tag-type label, or a
pair of a label and an id. -/
inductive TagItem (T : Type) where
  | bare (t : T)
  | pair (t : T) (id : TagID)
deriving DecidableEq, Repr

/-- TagsCallback from src/CacheUtils.ts lines 14-18: a function from
(result or undefined, error or undefined, arg) to a list of tags. -/
def TagsCallback (R A E T : Type) : Type :=
  Option R → Option E → A → List (TagItem T)

/-- ProvidingTags from src/CacheUtils.ts lines 24-26: a literal tag list or
a callback computing one. -/
inductive ProvidingTags (R A E T : Type) where
  | list (tags : List (TagItem T))
  | callback (f : TagsCallback R A E T)

/-- TagsProvider from src/CacheUtils.ts lines 28-30: an optional
ProvidingTags argument to a TagsCallback. -/
def TagsProvider (R A E T : Type) : Type :=
  Option (ProvidingTags R A E T) → TagsCallback R A E T

/-- An item of the result array of `withList`: the source constrains items
to `Record<"id", TagID>`, i.e. a record carrying an `id` field (plus any
other payload). -/
structure IdRecord (ρ : Type) where
  id : TagID
  payload : ρ
deriving DecidableEq, Repr

/-- getTags, src/CacheUtils.ts lines 61-71: absent tags give `[]`
(a present ProvidingTags value is an array or function, never JS-falsy,
so `!tags` is exactly absence); a function is applied to the context; a
literal list is returned unchanged. -/
def getTags (result : Option R) (error : Option E) (arg : A) :
    Option (ProvidingTags R A E T) → List (TagItem T)
  | none => []
  | some (.callback f) => f result error arg
  | some (.list tags) => tags

/-- concatTags, src/CacheUtils.ts lines 73-80: resolve both sources against
the same context and concatenate, left before right. -/
def concatTags (result : Option R) (error : Option E) (arg : A)
    (tagsLeft tagsRight : Option (ProvidingTags R A E T)) : List (TagItem T) :=
  getTags result error arg tagsLeft ++ getTags result error arg tagsRight

/-- createTagsProvider, src/CacheUtils.ts lines 98-105: fix built-in tags,
accept optional extra tags, and resolve built-ins before extras against the
live context. -/
def createTagsProvider (providingTags : ProvidingTags R A E T) :
    TagsProvider R A E T :=
  fun tags result error arg =>
    concatTags result error arg (some providingTags) tags

/-- withList, src/CacheUtils.ts lines 126-133.  `R` is an array of records
with an `id` field; an array is never JS-falsy, so `!result` is absence. -/
def withList (type : T) : TagsProvider (List (IdRecord ρ)) A E T :=
  createTagsProvider (.callback fun result _ _ =>
    match result with
    | none => [.pair type (.str "LIST")]
    | some items =>
        .pair type (.str "LIST") :: items.map fun item => .pair type item.id)

/-- withNestedList, src/CacheUtils.ts lines 160-172.  `R` is generic, so
`!result` is absence or JS-falsiness of the present value; a falsy result
short-circuits before `extractList` is called. -/
def withNestedList (falsy : R → Bool) (type : T)
    (extractList : R → List (IdRecord ρ)) : TagsProvider R A E T :=
  createTagsProvider (.callback fun result _ _ =>
    match result with
    | none => [.pair type (.str "LIST")]
    | some r =>
        if falsy r then [.pair type (.str "LIST")]
        else
          .pair type (.str "LIST") ::
            (extractList r).map fun item => .pair type item.id)

/-- withDeepNestedList, src/CacheUtils.ts lines 203-219: like
withNestedList but each item's id is produced by `extractId`. -/
def withDeepNestedList (falsy : R → Bool) (type : T)
    (extractList : R → List I) (extractId : I → TagID) :
    TagsProvider R A E T :=
  createTagsProvider (.callback fun result _ _ =>
    match result with
    | none => [.pair type (.str "LIST")]
    | some r =>
        if falsy r then [.pair type (.str "LIST")]
        else
          .pair type (.str "LIST") ::
            (extractList r).map fun item => .pair type (extractId item))

/-- withArgAsId, src/CacheUtils.ts lines 229-232: the argument type is
constrained to TagID and used directly as the id. -/
def withArgAsId (type : T) : TagsProvider R TagID E T :=
  createTagsProvider (.callback fun _ _ arg => [.pair type arg])

/-- withNestedArgId, src/CacheUtils.ts lines 242-250. -/
def withNestedArgId (type : T) (extractId : A → TagID) :
    TagsProvider R A E T :=
  createTagsProvider (.callback fun _ _ arg => [.pair type (extractId arg)])

/-- withNestedResultId, src/CacheUtils.ts lines 260-272: `if (!result)`
returns `[]`; otherwise one tag with the extracted id.  As in
withNestedList, a present but JS-falsy result takes the `!result` branch. -/
def withNestedResultId (falsy : R → Bool) (type : T)
    (extractId : R → TagID) : TagsProvider R A E T :=
  createTagsProvider (.callback fun result _ _ =>
    match result with
    | none => []
    | some r => if falsy r then [] else [.pair type (extractId r)])

/-- invalidateList, src/CacheUtils.ts lines 282-283: a literal built-in
list, independent of the context. -/
def invalidateList (type : T) : TagsProvider R A E T :=
  createTagsProvider (.list [.pair type (.str "LIST")])

/-- invalidateOnSuccess, src/CacheUtils.ts lines 298-303: `if (error)`
returns `[]`; otherwise successTags are resolved against the context.
`falsyE` captures which present error values are JS-falsy (the default
error type is an object and is never falsy). -/
def invalidateOnSuccess (falsyE : E → Bool)
    (successTags : Option (ProvidingTags R A E T)) : TagsCallback R A E T :=
  fun result error arg =>
    match error with
    | none => getTags result error arg successTags
    | some e =>
        if falsyE e then getTags result error arg successTags else []

/-- Right-to-left application chain of provider constructors, the meaning of
ramda `compose(p1, ..., pn)(tags)` = `p1(p2(... pn(tags) ...))`: each inner
application yields a TagsCallback, which is a function and hence a valid
ProvidingTags for the next constructor out. -/
def composeChain (p : TagsProvider R A E T) :
    List (TagsProvider R A E T) → Option (ProvidingTags R A E T) →
      TagsCallback R A E T
  | [], tags => p tags
  | q :: rest, tags => p (some (.callback (composeChain q rest tags)))

/-- withTags, src/CacheUtils.ts lines 56-59: `compose(...tagsProviders)`.
ramda compose throws `Error("compose requires at least one argument")` when
given zero functions, at the moment withTags is applied to the list, i.e.
at construction time; on a non-empty list it is right-to-left composition. -/
def withTags : List (TagsProvider R A E T) →
    Except String (TagsProvider R A E T)
  | [] => .error "compose requires at least one argument"
  | p :: rest => .ok (composeChain p rest)

/-- Observation helper: run a possibly-failed withTags construction on an
extra-tags argument and a context, `none` when construction failed. -/
def runProvider (c : Except String (TagsProvider R A E T))
    (tags : Option (ProvidingTags R A E T)) (result : Option R)
    (error : Option E) (arg : A) : Option (List (TagItem T)) :=
  match c with
  | .error _ => none
  | .ok p => some (p tags result error arg)

/-- Outcome of the part_000 `withTags`, i.e. of ramda
`composeWith((fn, res) => fn(res))(list)`: a provider for a non-empty list,
or the identity function when the list is empty (pipeWith returns
`identity` on `list.length <= 0` instead of signalling an error). -/
inductive ComposeWithResult (R A E T : Type) where
  | provider (p : TagsProvider R A E T)
  | identity

namespace P0

/-!
Embedding of the second copy of the CacheUtils class,
src/unnamed/part_000.  Every method body there is textually identical to
the src/CacheUtils.ts version except `withTags`, which uses
`composeWith((fn, res) => fn(res))` instead of `compose`.
-/

/-- getTags, src/unnamed/part_000 lines 54-68 (static method, same body as
the instance version). -/
def getTags (result : Option R) (error : Option E) (arg : A) :
    Option (ProvidingTags R A E T) → List (TagItem T)
  | none => []
  | some (.callback f) => f result error arg
  | some (.list tags) => tags

/-- concatTags, src/unnamed/part_000 lines 70-84. -/
def concatTags (result : Option R) (error : Option E) (arg : A)
    (tagsLeft tagsRight : Option (ProvidingTags R A E T)) : List (TagItem T) :=
  getTags result error arg tagsLeft ++ getTags result error arg tagsRight

/-- createTagsProvider, src/unnamed/part_000 lines 102-114. -/
def createTagsProvider (providingTags : ProvidingTags R A E T) :
    TagsProvider R A E T :=
  fun tags result error arg =>
    concatTags result error arg (some providingTags) tags

/-- withList, src/unnamed/part_000 lines 135-143. -/
def withList (type : T) : TagsProvider (List (IdRecord ρ)) A E T :=
  createTagsProvider (.callback fun result _ _ =>
    match result with
    | none => [.pair type (.str "LIST")]
    | some items =>
        .pair type (.str "LIST") :: items.map fun item => .pair type item.id)

/-- withNestedList, src/unnamed/part_000 lines 170-183. -/
def withNestedList (falsy : R → Bool) (type : T)
    (extractList : R → List (IdRecord ρ)) : TagsProvider R A E T :=
  createTagsProvider (.callback fun result _ _ =>
    match result with
    | none => [.pair type (.str "LIST")]
    | some r =>
        if falsy r then [.pair type (.str "LIST")]
        else
          .pair type (.str "LIST") ::
            (extractList r).map fun item => .pair type item.id)

/-- withDeepNestedList, src/unnamed/part_000 lines 214-231. -/
def withDeepNestedList (falsy : R → Bool) (type : T)
    (extractList : R → List I) (extractId : I → TagID) :
    TagsProvider R A E T :=
  createTagsProvider (.callback fun result _ _ =>
    match result with
    | none => [.pair type (.str "LIST")]
    | some r =>
        if falsy r then [.pair type (.str "LIST")]
        else
          .pair type (.str "LIST") ::
            (extractList r).map fun item => .pair type (extractId item))

/-- withArgAsId, src/unnamed/part_000 lines 241-247. -/
def withArgAsId (type : T) : TagsProvider R TagID E T :=
  createTagsProvider (.callback fun _ _ arg => [.pair type arg])

/-- withNestedArgId, src/unnamed/part_000 lines 257-265. -/
def withNestedArgId (type : T) (extractId : A → TagID) :
    TagsProvider R A E T :=
  createTagsProvider (.callback fun _ _ arg => [.pair type (extractId arg)])

/-- withNestedResultId, src/unnamed/part_000 lines 275-288. -/
def withNestedResultId (falsy : R → Bool) (type : T)
    (extractId : R → TagID) : TagsProvider R A E T :=
  createTagsProvider (.callback fun result _ _ =>
    match result with
    | none => []
    | some r => if falsy r then [] else [.pair type (extractId r)])

/-- invalidateList, src/unnamed/part_000 lines 298-302. -/
def invalidateList (type : T) : TagsProvider R A E T :=
  createTagsProvider (.list [.pair type (.str "LIST")])

/-- invalidateOnSuccess, src/unnamed/part_000 lines 317-329 (same body as
the instance version). -/
def invalidateOnSuccess (falsyE : E → Bool)
    (successTags : Option (ProvidingTags R A E T)) : TagsCallback R A E T :=
  fun result error arg =>
    match error with
    | none => getTags result error arg successTags
    | some e =>
        if falsyE e then getTags result error arg successTags else []

/-- Fold used by withTags, src/unnamed/part_000 lines 45-52:
`composeWith((fn, res) => fn(res))(tagsProviders)`.  ramda composeWith
reverses the list and hands it to pipeWith; on a non-empty reversed list
`q :: qs`, pipeWith applies the head `q` to the incoming argument and folds
the tail with the transformer `(fn, res) => fn(res)` (on the empty list
pipeWith returns the identity function instead). -/
def pipeFold (q : TagsProvider R A E T) (qs : List (TagsProvider R A E T)) :
    TagsProvider R A E T :=
  fun tags => qs.foldl (fun res f => f (some (.callback res))) (q tags)

/-- withTags, src/unnamed/part_000 lines 45-52, continued: dispatch of
pipeWith on the reversed provider list. -/
def withTags (ps : List (TagsProvider R A E T)) : ComposeWithResult R A E T :=
  match ps.reverse with
  | [] => .identity
  | q :: qs => .provider (pipeFold q qs)

end P0

/-- C1: for every built-in TagSource B, optional extraTags and context, the
resolver built by createTagsProvider returns exactly the resolution of B
followed by the resolution of the extra tags against the same context, and
the output length is the sum of the two resolved lengths (nothing is
deduplicated or dropped). -/
theorem createTagsProvider_concat_C1 (B : ProvidingTags R A E T)
    (tags : Option (ProvidingTags R A E T)) (result : Option R)
    (error : Option E) (arg : A) :
    createTagsProvider B tags result error arg =
        getTags result error arg (some B) ++ getTags result error arg tags ∧
      (createTagsProvider B tags result error arg).length =
        (getTags result error arg (some B)).length +
          (getTags result error arg tags).length :=
  ⟨rfl, (List.length_append _ _).symm ▸ rfl⟩

/-- C4: Tag Resolution satisfies all three cases of its contract: an absent
TagSource resolves to the empty list, a literal list resolves to itself
unchanged, and a callback resolves to its application to
(result, error, argument). -/
theorem getTags_cases_C4 (result : Option R) (error : Option E) (arg : A)
    (L : List (TagItem T)) (f : TagsCallback R A E T) :
    getTags result error arg (none : Option (ProvidingTags R A E T)) = [] ∧
      getTags result error arg (some (.list L)) = L ∧
      getTags result error arg (some (.callback f)) = f result error arg :=
  ⟨rfl, rfl, rfl⟩

/-- C7: a literal (non-callback) TagSource is context-independent: resolving
it against any two contexts yields identical lists, both equal to the
literal list itself. -/
theorem getTags_literal_independent_C7 (L : List (TagItem T))
    (r1 r2 : Option R) (e1 e2 : Option E) (a1 a2 : A) :
    getTags r1 e1 a1 (some (.list L)) = getTags r2 e2 a2 (some (.list L)) ∧
      getTags r1 e1 a1 (some (.list L)) = L :=
  ⟨rfl, rfl⟩

/-- C5: every by-result list provider with no extra tags degrades to the
single LIST tag when the result is absent, whatever the error; and when the
result is present, withList emits the LIST tag followed by one tag per item
in item order, using each item's own id field (in particular on the result
[(id 1), (id 2)] with type Product). -/
theorem byResult_listTag_C5 (type : T) (error : Option E) (arg : A)
    (falsy : R → Bool) (extractList : R → List (IdRecord ρ))
    (falsy2 : S → Bool) (extractL : S → List I) (extractI : I → TagID)
    (items : List (IdRecord ρ)) :
    withList type (none : Option (ProvidingTags (List (IdRecord ρ)) A E T))
        none error arg = [.pair type (.str "LIST")] ∧
      withNestedList falsy type extractList none none error arg =
        [.pair type (.str "LIST")] ∧
      withDeepNestedList falsy2 type extractL extractI none none error arg =
        [.pair type (.str "LIST")] ∧
      withList type none (some items) error arg =
        .pair type (.str "LIST") ::
          items.map (fun item => .pair type item.id) ∧
      withList "Product" none
          (some [(⟨.num 1, ()⟩ : IdRecord Unit), ⟨.num 2, ()⟩])
          (none : Option Unit) () =
        [.pair "Product" (.str "LIST"), .pair "Product" (.num 1),
          .pair "Product" (.num 2)] := by
  refine ⟨rfl, rfl, rfl, ?_, rfl⟩
  simp [withList, createTagsProvider, concatTags, getTags]

/-- C9: a present but empty result list is not an error: withList on the
empty list yields exactly the LIST tag, the same output as on an absent
result; likewise withNestedList and withDeepNestedList when the (truthy)
result's extracted list is empty. -/
theorem emptyList_result_C9 (type : T) (error : Option E) (arg : A)
    (falsy : R → Bool) (extractList : R → List (IdRecord ρ))
    (falsy2 : S → Bool) (extractL : S → List I) (extractI : I → TagID) :
    withList type (none : Option (ProvidingTags (List (IdRecord ρ)) A E T))
        (some []) error arg = [.pair type (.str "LIST")] ∧
      withList type (none : Option (ProvidingTags (List (IdRecord ρ)) A E T))
          (some []) error arg =
        withList type (none : Option (ProvidingTags (List (IdRecord ρ)) A E T))
          none error arg ∧
      (∀ r, falsy r = false → extractList r = [] →
        withNestedList falsy type extractList none (some r) error arg =
          [.pair type (.str "LIST")]) ∧
      (∀ s, falsy2 s = false → extractL s = [] →
        withDeepNestedList falsy2 type extractL extractI none (some s)
            error arg = [.pair type (.str "LIST")]) := by
  refine ⟨rfl, rfl, ?_, ?_⟩
  · intro r hr hl
    simp [withNestedList, createTagsProvider, concatTags, getTags, hr, hl]
  · intro s hs hl
    simp [withDeepNestedList, createTagsProvider, concatTags, getTags, hs, hl]

/-- Witness for C9: concrete instantiation with result type Int (falsy
value 0, as in JavaScript), a present truthy result 1 whose extracted list
is empty: both nested providers produce exactly the LIST tag. -/
theorem emptyList_result_C9_witness :
    withNestedList (fun n : Int => n == 0) "Product"
        (fun _ => ([] : List (IdRecord Unit))) none (some 1)
        (none : Option Unit) () = [.pair "Product" (.str "LIST")] ∧
      withDeepNestedList (fun n : Int => n == 0) "Product"
          (fun _ => ([] : List Unit)) (fun _ => .str "x") none (some 1)
          (none : Option Unit) () = [.pair "Product" (.str "LIST")] :=
  ⟨(emptyList_result_C9 "Product" none () (fun n : Int => n == 0)
      (fun _ => ([] : List (IdRecord Unit))) (fun n : Int => n == 0)
      (fun _ => ([] : List Unit)) (fun _ => .str "x")).2.2.1 1 (by decide) rfl,
    (emptyList_result_C9 "Product" none () (fun n : Int => n == 0)
      (fun _ => ([] : List (IdRecord Unit))) (fun n : Int => n == 0)
      (fun _ => ([] : List Unit)) (fun _ => .str "x")).2.2.2 1 (by decide) rfl⟩

/-- C8 counterexample: instantiating the generic result type with number,
the present result 0 is JavaScript-falsy, so `if (!result)` in
withNestedResultId takes the absent branch and the resolver returns [],
not the claimed single tag with the extracted id. -/
theorem withNestedResultId_zero_counterexample_C8 :
    withNestedResultId (fun n : Int => n == 0) "Product" (fun n => .num n)
        none (some 0) (none : Option Unit) () = [] ∧
      ([] : List (TagItem String)) ≠ [.pair "Product" (.num 0)] :=
  ⟨rfl, by decide⟩

/-- C8 amended: withNestedResultId with no extra tags returns [] on an
absent result (no LIST tag, unlike the by-result list providers) and on a
present but JavaScript-falsy result (such as the number 0); on a present
truthy result it returns exactly the single tag with the extracted id. -/
theorem withNestedResultId_spec_C8 (falsy : R → Bool) (type : T)
    (extractId : R → TagID) (error : Option E) (arg : A) :
    withNestedResultId falsy type extractId none none error arg = [] ∧
      (∀ r, falsy r = false →
        withNestedResultId falsy type extractId none (some r) error arg =
          [.pair type (extractId r)]) ∧
      (∀ r, falsy r = true →
        withNestedResultId falsy type extractId none (some r) error arg =
          []) := by
  refine ⟨rfl, ?_, ?_⟩
  · intro r hr
    simp [withNestedResultId, createTagsProvider, concatTags, getTags, hr]
  · intro r hr
    simp [withNestedResultId, createTagsProvider, concatTags, getTags, hr]

/-- Witness for the amended C8: with result type Int (0 falsy, as in
JavaScript), the truthy result 5 yields its extracted tag and the falsy
result 0 yields []. -/
theorem withNestedResultId_spec_C8_witness :
    withNestedResultId (fun n : Int => n == 0) "Product" (fun n => .num n)
        none (some 5) (none : Option Unit) () = [.pair "Product" (.num 5)] ∧
      withNestedResultId (fun n : Int => n == 0) "Product" (fun n => .num n)
        none (some 0) (none : Option Unit) () = [] :=
  ⟨(withNestedResultId_spec_C8 (fun n : Int => n == 0) "Product"
      (fun n => .num n) none ()).2.1 5 (by decide),
    (withNestedResultId_spec_C8 (fun n : Int => n == 0) "Product"
      (fun n => .num n) none ()).2.2 0 (by decide)⟩

/-- C6: invalidateOnSuccess returns [] whenever the error is present and
truthy, for every successTags source (so a callback is never consulted),
and resolves successTags against the context when the error is absent. -/
theorem invalidateOnSuccess_spec_C6 (falsyE : E → Bool)
    (successTags : Option (ProvidingTags R A E T)) (result : Option R)
    (arg : A) :
    (∀ e, falsyE e = false →
      invalidateOnSuccess falsyE successTags result (some e) arg = []) ∧
      invalidateOnSuccess falsyE successTags result none arg =
        getTags result none arg successTags := by
  refine ⟨?_, rfl⟩
  intro e he
  simp [invalidateOnSuccess, he]

/-- Witness for C6: with the unit error type (every present error truthy,
like the default object-shaped error), a present error suppresses the
literal successTags [Product] while an absent error resolves them. -/
theorem invalidateOnSuccess_spec_C6_witness :
    invalidateOnSuccess (fun _ : Unit => false)
        (some (.list [.bare "Product"])) (none : Option Unit) (some ()) () =
      [] ∧
      invalidateOnSuccess (fun _ : Unit => false)
        (some (.list [.bare "Product"])) (none : Option Unit) none () =
      [.bare "Product"] :=
  ⟨(invalidateOnSuccess_spec_C6 (fun _ : Unit => false)
      (some (.list [.bare "Product"])) (none : Option Unit) ()).1 () rfl,
    (invalidateOnSuccess_spec_C6 (fun _ : Unit => false)
      (some (.list [.bare "Product"])) (none : Option Unit) ()).2⟩

/-- C3: the src/CacheUtils.ts withTags applied to the empty provider list
signals the usage error at construction time (ramda compose throws on zero
arguments), before any extra tags or context are supplied; no provider and
hence no tag list is ever produced from the empty sequence. -/
theorem withTags_empty_errors_C3 (R A E T : Type) :
    withTags ([] : List (TagsProvider R A E T)) =
      .error "compose requires at least one argument" :=
  rfl

/-- Resolving a compose chain of factory-built providers flattens to the
stages' built-in tags in stage order followed by the extra tags: the head
stage resolves its built-ins first and the rest of the chain, wrapped as a
callback, is resolved after them against the same context. -/
theorem composeChain_factory (B : ProvidingTags R A E T)
    (Bs : List (ProvidingTags R A E T)) (tags : Option (ProvidingTags R A E T))
    (result : Option R) (error : Option E) (arg : A) :
    composeChain (createTagsProvider B) (Bs.map createTagsProvider) tags
        result error arg =
      getTags result error arg (some B) ++
        ((Bs.map fun Bi => getTags result error arg (some Bi)).flatten ++
          getTags result error arg tags) := by
  induction Bs generalizing B with
  | nil =>
      simp [composeChain, createTagsProvider, concatTags]
  | cons Bi rest ih =>
      simp only [List.map_cons, composeChain]
      show getTags result error arg (some B) ++
          composeChain (createTagsProvider Bi) (rest.map createTagsProvider)
            tags result error arg = _
      rw [ih]
      simp [List.append_assoc]

/-- C2: resolving the Composition Combinator over a non-empty sequence of
factory-built providers yields each stage's built-in tags in the order the
stages were listed, with the externally supplied extra tags appended last;
in particular composing invalidateList A and invalidateList B gives the two
LIST tags in order, and with the extra literal tag C it is appended after
them. -/
theorem withTags_order_C2 :
    (∀ (R A E T : Type) (B : ProvidingTags R A E T)
        (Bs : List (ProvidingTags R A E T))
        (tags : Option (ProvidingTags R A E T)) (result : Option R)
        (error : Option E) (arg : A),
      runProvider (withTags ((B :: Bs).map createTagsProvider)) tags result
          error arg =
        some (((B :: Bs).map fun Bi => getTags result error arg (some Bi)).flatten
          ++ getTags result error arg tags)) ∧
      (∀ (result error : Option Unit) (arg : Unit),
        runProvider (withTags [invalidateList "A", invalidateList "B"]) none
            result error arg =
          some [.pair "A" (.str "LIST"), .pair "B" (.str "LIST")]) ∧
      (∀ (result error : Option Unit) (arg : Unit),
        runProvider (withTags [invalidateList "A", invalidateList "B"])
            (some (.list [.bare "C"])) result error arg =
          some [.pair "A" (.str "LIST"), .pair "B" (.str "LIST"),
            .bare "C"]) := by
  refine ⟨?_, ?_, ?_⟩
  · intro R A E T B Bs tags result error arg
    simp only [List.map_cons, withTags, runProvider]
    rw [composeChain_factory]
    simp [List.append_assoc]
  · intro result error arg
    rfl
  · intro result error arg
    rfl

/-- Folding one more provider onto the end of a pipeWith fold applies it,
wrapped as a callback, outermost. -/
theorem pipeFold_append (q : TagsProvider R A E T)
    (qs : List (TagsProvider R A E T)) (p : TagsProvider R A E T) :
    P0.pipeFold q (qs ++ [p]) =
      fun tags => p (some (.callback (P0.pipeFold q qs tags))) := by
  funext tags
  simp [P0.pipeFold, List.foldl_append]

/-- On a non-empty provider list the part_000 withTags (ramda composeWith)
produces exactly the right-to-left application chain that the
src/CacheUtils.ts withTags (ramda compose) produces. -/
theorem P0_withTags_cons (p : TagsProvider R A E T)
    (ps : List (TagsProvider R A E T)) :
    P0.withTags (p :: ps) = .provider (composeChain p ps) := by
  induction ps generalizing p with
  | nil => rfl
  | cons q qs ih =>
      rcases h : (q :: qs).reverse with _ | ⟨r, rs⟩
      · simp at h
      · have h2 : P0.withTags (q :: qs) = .provider (P0.pipeFold r rs) := by
          simp only [P0.withTags, h]
        have h5 : P0.pipeFold r rs = composeChain q qs := by
          have h6 := h2.symm.trans (ih q)
          injection h6
        have h7 : (p :: q :: qs).reverse = r :: (rs ++ [p]) := by
          rw [List.reverse_cons, h]
          rfl
        rw [P0.withTags, h7]
        show ComposeWithResult.provider (P0.pipeFold r (rs ++ [p])) = _
        rw [pipeFold_append, h5]
        rfl

/-- C10 counterexample: on the empty provider sequence the two CacheUtils
implementations behave observably differently: the instance-method version
(src/CacheUtils.ts, ramda compose) signals the construction-time usage
error, while the static-method version (src/unnamed/part_000, ramda
composeWith via pipeWith) silently accepts the empty sequence and returns
the identity function, so the claimed equivalence fails at this
configuration of withTags. -/
theorem withTags_empty_divergence_C10 :
    withTags ([] : List (TagsProvider Unit Unit Unit String)) =
        .error "compose requires at least one argument" ∧
      P0.withTags ([] : List (TagsProvider Unit Unit Unit String)) =
        .identity :=
  ⟨rfl, rfl⟩

/-- C10 amended: the two CacheUtils implementations are observationally
equivalent on every provider constructor they both define, with the one
exception of withTags on the empty provider sequence (where the instance
version throws and the static version returns the identity function): for
the same configuration, extra tags and context, withList, withNestedList,
withDeepNestedList, withArgAsId, withNestedArgId, withNestedResultId,
invalidateList and invalidateOnSuccess return equal tag lists, and for
every non-empty provider sequence both withTags versions produce the same
resolver. -/
theorem cacheUtils_versions_equiv_C10 :
    (∀ (A E T ρ : Type) (type : T)
        (tags : Option (ProvidingTags (List (IdRecord ρ)) A E T))
        (result : Option (List (IdRecord ρ))) (error : Option E) (arg : A),
      P0.withList type tags result error arg =
        withList type tags result error arg) ∧
      (∀ (R A E T ρ : Type) (falsy : R → Bool) (type : T)
          (extractList : R → List (IdRecord ρ))
          (tags : Option (ProvidingTags R A E T)) (result : Option R)
          (error : Option E) (arg : A),
        P0.withNestedList falsy type extractList tags result error arg =
          withNestedList falsy type extractList tags result error arg) ∧
      (∀ (R A E T I : Type) (falsy : R → Bool) (type : T)
          (extractList : R → List I) (extractId : I → TagID)
          (tags : Option (ProvidingTags R A E T)) (result : Option R)
          (error : Option E) (arg : A),
        P0.withDeepNestedList falsy type extractList extractId tags result
            error arg =
          withDeepNestedList falsy type extractList extractId tags result
            error arg) ∧
      (∀ (R E T : Type) (type : T)
          (tags : Option (ProvidingTags R TagID E T)) (result : Option R)
          (error : Option E) (arg : TagID),
        P0.withArgAsId type tags result error arg =
          withArgAsId type tags result error arg) ∧
      (∀ (R A E T : Type) (type : T) (extractId : A → TagID)
          (tags : Option (ProvidingTags R A E T)) (result : Option R)
          (error : Option E) (arg : A),
        P0.withNestedArgId type extractId tags result error arg =
          withNestedArgId type extractId tags result error arg) ∧
      (∀ (R A E T : Type) (falsy : R → Bool) (type : T)
          (extractId : R → TagID) (tags : Option (ProvidingTags R A E T))
          (result : Option R) (error : Option E) (arg : A),
        P0.withNestedResultId falsy type extractId tags result error arg =
          withNestedResultId falsy type extractId tags result error arg) ∧
      (∀ (R A E T : Type) (type : T) (tags : Option (ProvidingTags R A E T))
          (result : Option R) (error : Option E) (arg : A),
        P0.invalidateList type tags result error arg =
          invalidateList type tags result error arg) ∧
      (∀ (R A E T : Type) (falsyE : E → Bool)
          (successTags : Option (ProvidingTags R A E T)) (result : Option R)
          (error : Option E) (arg : A),
        P0.invalidateOnSuccess falsyE successTags result error arg =
          invalidateOnSuccess falsyE successTags result error arg) ∧
      (∀ (R A E T : Type) (p : TagsProvider R A E T)
          (ps : List (TagsProvider R A E T)),
        withTags (p :: ps) = .ok (composeChain p ps) ∧
          P0.withTags (p :: ps) = .provider (composeChain p ps)) := by
  refine ⟨?_, ?_, ?_, ?_, ?_, ?_, ?_, ?_, ?_⟩
  · intros
    rfl
  · intros
    rfl
  · intros
    rfl
  · intros
    rfl
  · intros
    rfl
  · intros
    rfl
  · intros
    rfl
  · intros
    rfl
  · intro R A E T p ps
    exact ⟨rfl, P0_withTags_cons p ps⟩
